import Mathlib

/-!
Shallow embedding of the `python-decorators-0x01` decorators:
`log_queries` (0-log_queries.py), `with_db_connection` (1-with_db_connection.py),
`transactional` (2-transactional.py), `retry_on_failure` (3-retry_on_failure.py)
and `cache_query` (4-cache_query.py), together with proofs of the claimed
properties.  Python exceptions become an `Except` result; side effects
(commit/rollback, open/close, sleeps, log records, prints, cache writes)
become explicit outputs of the embedded wrappers.
-/

set_option autoImplicit false

namespace PyDecorators

/-- Model of a Python exception escaping a wrapped call.  `dbError` stands for
`sqlite3.Error`; `other` stands for every other `Exception`. -/
inductive Exc where
  | dbError (msg : String)
  | other (msg : String)
  deriving Repr

/-- The message the exception prints as (`str(e)` / `f"{e}"`). -/
def Exc.text : Exc → String
  | .dbError m => m
  | .other m => m

/-- Python truthiness of a value that is either `None` or a string:
`None` and `""` are falsy, every other string is truthy. -/
def truthy : Option String → Bool
  | none => false
  | some s => s ≠ ""

/-- Python `a or b` on values that are `None` or strings: yields `a` when `a`
is truthy, otherwise `b`. -/
def pyOr (a b : Option String) : Option String :=
  if truthy a then a else b

/-- `str(x)` for a value that is `None` or a string. -/
def pyStr : Option String → String
  | none => "None"
  | some s => s

/-! ### 2-transactional.py: `transactional`

```python
def wrapper(conn, *args, **kwargs):
    try:
        result = func(conn, *args, **kwargs)
        conn.commit()
        return result
    except Exception as e:
        conn.rollback()
        print(f"Transaction failed: {e}")
        raise
```
The connection together with the remaining arguments is abstracted into a
single input `x : C`; the inner function is `f : C → Except Exc R`.  The
commit/rollback calls issued on the connection and the printed lines are
returned explicitly. -/

/-- A transaction operation issued on the connection. -/
inductive TxnOp where
  | commit
  | rollback
  deriving Repr

/-- Observable outcome of one call of the `transactional` wrapper. -/
structure TxnOut (R : Type) where
  result : Except Exc R
  ops : List TxnOp
  printed : List String
  deriving Repr

/-- Embedding of `transactional(func)` applied at input `x` (connection plus
original arguments bundled). -/
def transactional {C R : Type} (f : C → Except Exc R) (x : C) : TxnOut R :=
  match f x with
  | .ok r => ⟨.ok r, [.commit], []⟩
  | .error e => ⟨.error e, [.rollback], ["Transaction failed: " ++ e.text]⟩

/-! ### 1-with_db_connection.py: `with_db_connection`

```python
def wrapper(*args, **kwargs):
    conn = sqlite3.connect('users.db')
    try:
        return func(conn, *args, **kwargs)
    finally:
        conn.close()
```
The wrapper opens one handle, runs the inner function on it, and the
`finally` block closes the handle on every exit path before the wrapper
returns or re-raises.  The inner function may emit its own events (of an
arbitrary type `IE`); the wrapper's open/close events are interleaved around
them in the order the Python executes. -/

/-- Events observable during one call of the `with_db_connection` wrapper:
the wrapper's own connection open/close, and events of the inner call. -/
inductive DbEvent (IE : Type) where
  | openConn (handle : Nat)
  | closeConn (handle : Nat)
  | inner (e : IE)
  deriving Repr

/-- Is this event a connection open (of any handle)? -/
def DbEvent.isOpen {IE : Type} : DbEvent IE → Bool
  | .openConn _ => true
  | _ => false

/-- Is this event a connection close (of any handle)? -/
def DbEvent.isClose {IE : Type} : DbEvent IE → Bool
  | .closeConn _ => true
  | _ => false

/-- The handle of the freshly opened connection (one per wrapper call). -/
def freshHandle : Nat := 0

/-- Embedding of `with_db_connection(func)`: the inner function receives the
handle and yields a result plus its own event list; the wrapper emits
`openConn` before and `closeConn` after (the `finally` runs on both the
normal-return and the raise path, before the wrapper's own exit). -/
def with_db_connection {R IE : Type} (f : Nat → Except Exc R × List IE) :
    Except Exc R × List (DbEvent IE) :=
  let conn := freshHandle
  let inner := f conn
  (inner.1, DbEvent.openConn conn :: (inner.2.map DbEvent.inner ++ [DbEvent.closeConn conn]))

/-! ### 3-retry_on_failure.py: `retry_on_failure`

```python
def wrapper(*args, **kwargs):
    for attempt in range(1, retries + 1):
        try:
            return func(*args, **kwargs)
        except Exception as e:
            print(f"[Attempt {attempt}] Error: {e}")
            if attempt < retries:
                print(f"Retrying in {delay} seconds...")
                time.sleep(delay)
            else:
                print("All retry attempts failed.")
                raise
```
The inner function is modelled as `f : Nat → Except Exc R`, giving the
outcome of the invocation made at attempt number `i` (attempts are numbered
from 1 as in the loop).  When the `for` loop completes without returning or
raising — which happens exactly when `retries = 0`, since otherwise the last
attempt either returns or re-raises — the Python function falls off the end
and returns `None`; the result type `Except Exc (Option R)` makes this
explicit (`.ok none`). -/

/-- Observable outcome of one call of the `retry_on_failure` wrapper:
the result (`.ok none` = Python returned `None` after an empty loop),
how many times the inner function was invoked, and the sleeps performed. -/
structure RetryOut (R : Type) where
  result : Except Exc (Option R)
  calls : Nat
  sleeps : List Nat
  deriving Repr

/-- The retry loop with `fuel` attempts remaining, the next attempt being
attempt number `i`.  `fuel = 0` models the exhausted `range`, falling off the
end of the function body. -/
def retry_go {R : Type} (f : Nat → Except Exc R) (delay : Nat) :
    Nat → Nat → RetryOut R
  | 0, _ => ⟨.ok none, 0, []⟩
  | fuel + 1, i =>
    match f i with
    | .ok v => ⟨.ok (some v), 1, []⟩
    | .error e =>
      if fuel = 0 then
        ⟨.error e, 1, []⟩
      else
        let o := retry_go f delay fuel (i + 1)
        ⟨o.result, o.calls + 1, delay :: o.sleeps⟩

/-- Embedding of `retry_on_failure(retries=retries, delay=delay)(func)`:
runs the loop `for attempt in range(1, retries + 1)`. -/
def retry_on_failure {R : Type} (retries delay : Nat) (f : Nat → Except Exc R) :
    RetryOut R :=
  retry_go f delay retries 1

/-! ### 4-cache_query.py: `cache_query`

```python
query_cache: Dict[str, Any] = {}

def wrapper(conn, *args, **kwargs):
    query = kwargs.get("query") or (args[0] if args else None)
    if not query:
        raise ValueError("Missing SQL query for caching")
    if query in query_cache:
        print("[CACHE HIT] Returning cached result.")
        return query_cache[query]
    print("[CACHE MISS] Executing and caching result.")
    result = func(conn, *args, **kwargs)
    query_cache[query] = result
    return result
```
The process-wide dict `query_cache` is threaded explicitly as an association
list (most recent binding first, matching dict lookup through
`List.lookup`).  Positional arguments are modelled as strings (the query is
the only argument the wrapper inspects); keyword arguments as an association
list from names to strings. -/

/-- An error escaping the `cache_query` wrapper: either the wrapper's own
`ValueError("Missing SQL query for caching")`, or an exception propagating
from the inner function. -/
inductive CacheErr where
  | missingQuery (msg : String)
  | fromInner (e : Exc)
  deriving Repr

/-- Observable outcome of one call of the `cache_query` wrapper: the result,
the cache state after the call, and how many times the inner function ran. -/
structure CacheOut (R : Type) where
  result : Except CacheErr R
  cache : List (String × R)
  innerCalls : Nat
  deriving Repr

/-- `kwargs.get("query") or (args[0] if args else None)`: the candidate query
value the wrapper works with (`none` = Python `None`). -/
def locate_cache_query (args : List String) (kwargs : List (String × String)) :
    Option String :=
  pyOr (kwargs.lookup "query") args.head?

/-- Embedding of `cache_query(func)` at an explicit cache state.  The
connection is not inspected by the wrapper itself; it is only handed to the
inner function, so `f` abstracts over connection use. -/
def cache_query {R : Type} (f : List String → List (String × String) → Except Exc R)
    (cache : List (String × R)) (args : List String)
    (kwargs : List (String × String)) : CacheOut R :=
  let query := locate_cache_query args kwargs
  if truthy query then
    let q := pyStr query
    match cache.lookup q with
    | some r => ⟨.ok r, cache, 0⟩
    | none =>
      match f args kwargs with
      | .ok r => ⟨.ok r, (q, r) :: cache, 1⟩
      | .error e => ⟨.error (.fromInner e), cache, 1⟩
  else
    ⟨.error (.missingQuery "Missing SQL query for caching"), cache, 0⟩

/-- The initial value of the module-level `query_cache` dict: empty. -/
def query_cache {R : Type} : List (String × R) := []

/-! ### 0-log_queries.py: `log_queries`

```python
def wrapper(*args, **kwargs):
    query = None
    if 'query' in kwargs:
        query = kwargs['query']
    elif args:
        sig = inspect.signature(func)
        params = list(sig.parameters.keys())
        if params and len(args) > 0:
            try:
                query_index = params.index('query')
                if len(args) > query_index:
                    query = args[query_index]
            except (ValueError, IndexError):
                query = f"Query not found in standard position. Args: {args}"
    timestamp = datetime.now().isoformat()
    function_name = func.__name__
    if query:
        clean_query = ' '.join(query.split()) if isinstance(query, str) else str(query)
        logger.info(f"[{timestamp}] Executing SQL in {function_name}: {clean_query}")
    else:
        logger.warning(f"[{timestamp}] {function_name} called but no query parameter found")
    try:
        result = func(*args, **kwargs)
        logger.info(f"[{timestamp}] Query in {function_name} completed successfully")
        return result
    except sqlite3.Error as e:
        logger.error(f"[{timestamp}] Database error in {function_name}: {e}")
        logger.error(f"[{timestamp}] Failed query: {query}")
        raise
    except Exception as e:
        logger.error(f"[{timestamp}] Unexpected error in {function_name}: {e}")
        logger.error(f"[{timestamp}] Failed query: {query}")
        raise
```
The declared parameter names of the wrapped function (`inspect.signature`)
are an explicit input `params`; the timestamp taken at the start of the call
is an input `ts`.  Positional argument values are modelled as strings (the
only argument the wrapper inspects is the query, which is a string). -/

/-- Severity of an emitted log record. -/
inductive LogLevel where
  | info
  | warning
  | errorLevel
  deriving DecidableEq, Repr

/-- One record emitted on the logging channel. -/
structure LogRec where
  level : LogLevel
  msg : String
  deriving DecidableEq, Repr

/-- `' '.join(s.split())`: collapse runs of whitespace to single spaces and
strip leading/trailing whitespace. -/
def collapse_ws (s : String) : String :=
  String.intercalate " " ((s.split Char.isWhitespace).filter (· ≠ ""))

/-- Rendering of the positional-argument tuple in
`f"Query not found in standard position. Args: {args}"`. -/
def showArgs (args : List String) : String :=
  "(" ++ String.intercalate ", " args ++ ")"

/-- The query-extraction logic of the `log_queries` wrapper: keyword `'query'`
when present; else, when positional arguments exist and the declared
parameter list is nonempty, the positional argument at `params.index('query')`
when in range, `None` when `'query'` is declared but out of range, and the
fallback string `"Query not found in standard position. Args: ..."` when
`'query'` is not among the declared parameters (the `except ValueError`
branch). -/
def locate_log_query (params : List String) (args : List String)
    (kwargs : List (String × String)) : Option String :=
  match kwargs.lookup "query" with
  | some q => some q
  | none =>
    if args.isEmpty then none
    else if params.isEmpty then none
    else
      match params.indexOf? "query" with
      | some qi => if args.length > qi then args.get? qi else none
      | none => some ("Query not found in standard position. Args: " ++ showArgs args)

/-- Observable outcome of one call of the `log_queries` wrapper. -/
structure LogOut (R : Type) where
  result : Except Exc R
  logs : List LogRec
  deriving Repr

/-- Embedding of `log_queries(func)`: `ts` is the timestamp string, `fname`
the wrapped function's name, `params` its declared parameter names. -/
def log_queries {R : Type} (ts fname : String) (params : List String)
    (f : List String → List (String × String) → Except Exc R)
    (args : List String) (kwargs : List (String × String)) : LogOut R :=
  let query := locate_log_query params args kwargs
  let pre : LogRec :=
    if truthy query then
      ⟨.info, "[" ++ ts ++ "] Executing SQL in " ++ fname ++ ": " ++ collapse_ws (pyStr query)⟩
    else
      ⟨.warning, "[" ++ ts ++ "] " ++ fname ++ " called but no query parameter found"⟩
  match f args kwargs with
  | .ok r =>
    ⟨.ok r, [pre, ⟨.info, "[" ++ ts ++ "] Query in " ++ fname ++ " completed successfully"⟩]⟩
  | .error (.dbError m) =>
    ⟨.error (.dbError m),
      [pre, ⟨.errorLevel, "[" ++ ts ++ "] Database error in " ++ fname ++ ": " ++ m⟩,
        ⟨.errorLevel, "[" ++ ts ++ "] Failed query: " ++ pyStr query⟩]⟩
  | .error (.other m) =>
    ⟨.error (.other m),
      [pre, ⟨.errorLevel, "[" ++ ts ++ "] Unexpected error in " ++ fname ++ ": " ++ m⟩,
        ⟨.errorLevel, "[" ++ ts ++ "] Failed query: " ++ pyStr query⟩]⟩

/-! ### Spec-side definitions used to compare claims with the code -/

/-- The query-location rule exactly as claim C6 words it: keyword lookup
first (`'query' in` the keyword arguments), otherwise the first positional
argument.  This is the claim's rule, to be diffed against the code's
`locate_cache_query`. -/
def locate_cache_query_as_claimed (args : List String)
    (kwargs : List (String × String)) : Option String :=
  match kwargs.lookup "query" with
  | some q => some q
  | none => args.head?

/-- The query-location rule exactly as claim C8 words it: keyword lookup
first, then positional-index lookup at the position of the wrapped
function's declared parameter named `query`.  This is the claim's rule, to
be diffed against the code's `locate_log_query`. -/
def locate_log_query_as_claimed (params args : List String)
    (kwargs : List (String × String)) : Option String :=
  match kwargs.lookup "query" with
  | some q => some q
  | none =>
    match params.indexOf? "query" with
    | some qi => args.get? qi
    | none => none

/-! ### Helper lemmas -/

/-- A successful association-list lookup means the key is among the entries. -/
theorem lookup_some_mem_keys {R : Type} (l : List (String × R)) (q : String)
    (r : R) (h : l.lookup q = some r) : ∃ p ∈ l, p.1 = q := by
  induction l with
  | nil => simp [List.lookup] at h
  | cons hd tl ih =>
    obtain ⟨k, b⟩ := hd
    simp only [List.lookup] at h
    split at h
    · next heq => exact ⟨(k, b), by simp, (eq_of_beq heq).symm⟩
    · obtain ⟨p, hp, hpq⟩ := ih h
      exact ⟨p, by simp [hp], hpq⟩

/-- Looking up the key just inserted at the front. -/
theorem lookup_cons_self {R : Type} (q : String) (r : R)
    (cache : List (String × R)) : ((q, r) :: cache).lookup q = some r := by
  simp [List.lookup]

/-- Inserting at the front does not change the lookup of any other key. -/
theorem lookup_cons_ne {R : Type} (q k : String) (r : R)
    (cache : List (String × R)) (h : k ≠ q) :
    ((q, r) :: cache).lookup k = cache.lookup k := by
  simp only [List.lookup]
  rw [show (k == q) = false from beq_eq_false_iff_ne.mpr h]

/-- Every key of the process-wide cache is a truthy (nonempty) string; this
is the invariant of every cache state the wrapper can produce, since only
the miss path writes and it is guarded by the truthiness check. -/
def CacheKeysTruthy {R : Type} (cache : List (String × R)) : Prop :=
  ∀ p ∈ cache, p.1 ≠ ""

/-- The initial (empty) `query_cache` satisfies the key invariant. -/
theorem query_cache_keys_truthy {R : Type} :
    CacheKeysTruthy (query_cache : List (String × R)) := by
  intro p hp
  simp [query_cache] at hp

/-- Wrapper behavior on a truthy located query that hits the cache:
cached result returned, cache untouched, inner function not invoked. -/
theorem cache_query_hit {R : Type}
    (f : List String → List (String × String) → Except Exc R)
    (cache : List (String × R)) (args : List String)
    (kwargs : List (String × String)) (q : String) (r : R)
    (hloc : locate_cache_query args kwargs = some q) (hq : q ≠ "")
    (hlk : cache.lookup q = some r) :
    cache_query f cache args kwargs = ⟨.ok r, cache, 0⟩ := by
  simp [cache_query, hloc, truthy, pyStr, hq, hlk]

/-- Wrapper behavior on a truthy located query that misses the cache when
the inner function returns normally: one inner invocation, its result both
returned and stored under the located query. -/
theorem cache_query_miss_ok {R : Type}
    (f : List String → List (String × String) → Except Exc R)
    (cache : List (String × R)) (args : List String)
    (kwargs : List (String × String)) (q : String) (r : R)
    (hloc : locate_cache_query args kwargs = some q) (hq : q ≠ "")
    (hlk : cache.lookup q = none) (hf : f args kwargs = .ok r) :
    cache_query f cache args kwargs = ⟨.ok r, (q, r) :: cache, 1⟩ := by
  simp [cache_query, hloc, truthy, pyStr, hq, hlk, hf]

/-- Wrapper behavior on a truthy located query that misses the cache when
the inner function raises: one inner invocation, the exception propagates,
nothing is stored. -/
theorem cache_query_miss_raise {R : Type}
    (f : List String → List (String × String) → Except Exc R)
    (cache : List (String × R)) (args : List String)
    (kwargs : List (String × String)) (q : String) (e : Exc)
    (hloc : locate_cache_query args kwargs = some q) (hq : q ≠ "")
    (hlk : cache.lookup q = none) (hf : f args kwargs = .error e) :
    cache_query f cache args kwargs = ⟨.error (.fromInner e), cache, 1⟩ := by
  simp [cache_query, hloc, truthy, pyStr, hq, hlk, hf]

/-- Wrapper behavior when the located candidate is falsy (`None` or the
empty string): `ValueError("Missing SQL query for caching")` is raised, the
inner function is not invoked, and the cache is untouched. -/
theorem cache_query_falsy {R : Type}
    (f : List String → List (String × String) → Except Exc R)
    (cache : List (String × R)) (args : List String)
    (kwargs : List (String × String))
    (hfalsy : truthy (locate_cache_query args kwargs) = false) :
    cache_query f cache args kwargs
      = ⟨.error (.missingQuery "Missing SQL query for caching"), cache, 0⟩ := by
  simp [cache_query, hfalsy]

/-- Events of the inner call are never the wrapper's `openConn`. -/
theorem countP_map_inner_isOpen {IE : Type} (l : List IE) :
    (l.map DbEvent.inner).countP (fun e => DbEvent.isOpen e) = 0 := by
  induction l with
  | nil => rfl
  | cons a t ih => simp [List.countP_cons, DbEvent.isOpen, ih]

/-- Events of the inner call are never the wrapper's `closeConn`. -/
theorem countP_map_inner_isClose {IE : Type} (l : List IE) :
    (l.map DbEvent.inner).countP (fun e => DbEvent.isClose e) = 0 := by
  induction l with
  | nil => rfl
  | cons a t ih => simp [List.countP_cons, DbEvent.isClose, ih]

/-- A truthy optional string is a nonempty string. -/
theorem truthy_eq_true_iff (o : Option String) :
    truthy o = true ↔ ∃ s, o = some s ∧ s ≠ "" := by
  cases o <;> simp [truthy]

/-- One wrapper call preserves the truthy-keys invariant of the cache: only
the miss path writes, and it is guarded by the truthiness check on the
located query. -/
theorem cache_query_preserves_keys_truthy {R : Type}
    (f : List String → List (String × String) → Except Exc R)
    (cache : List (String × R)) (args : List String)
    (kwargs : List (String × String)) (h : CacheKeysTruthy cache) :
    CacheKeysTruthy (cache_query f cache args kwargs).cache := by
  cases htr : truthy (locate_cache_query args kwargs) with
  | false => rw [cache_query_falsy f cache args kwargs htr]; exact h
  | true =>
    obtain ⟨q, hloc, hq⟩ := (truthy_eq_true_iff _).mp htr
    cases hlk : cache.lookup q with
    | some r => rw [cache_query_hit f cache args kwargs q r hloc hq hlk]; exact h
    | none =>
      cases hf : f args kwargs with
      | ok r =>
        rw [cache_query_miss_ok f cache args kwargs q r hloc hq hlk hf]
        intro p hp
        rcases List.mem_cons.mp hp with h1 | h2
        · rw [h1]; exact hq
        · exact h p h2
      | error e =>
        rw [cache_query_miss_raise f cache args kwargs q e hloc hq hlk hf]
        exact h

/-! ### Claim theorems -/

/-- C1: for every function wrapped by `transactional` and every input, a
normal inner return leads to exactly a `commit` on the connection with the
inner result returned unchanged, and an inner exception leads to exactly a
`rollback` with the original exception re-raised unchanged — in both cases
the wrapper's result is the inner call's outcome, so no exception is
translated or suppressed. -/
theorem transactional_commits_or_rolls_back {C R : Type}
    (f : C → Except Exc R) (x : C) :
    (transactional f x).result = f x ∧
    (∀ r : R, f x = .ok r → (transactional f x).ops = [TxnOp.commit]) ∧
    (∀ e : Exc, f x = .error e → (transactional f x).ops = [TxnOp.rollback]) := by
  cases h : f x with
  | ok r => refine ⟨?_, ?_, ?_⟩ <;> simp [transactional, h]
  | error e => refine ⟨?_, ?_, ?_⟩ <;> simp [transactional, h]

/-- Witness for C1: a succeeding inner call commits, a failing one rolls
back, at concrete inputs. -/
theorem transactional_commits_or_rolls_back_witness :
    (transactional (fun _ : Unit => (Except.ok 7 : Except Exc Nat)) ()).ops
        = [TxnOp.commit] ∧
    (transactional (fun _ : Unit =>
        (Except.error (Exc.dbError "boom") : Except Exc Nat)) ()).ops
        = [TxnOp.rollback] :=
  ⟨(transactional_commits_or_rolls_back
      (fun _ : Unit => (Except.ok 7 : Except Exc Nat)) ()).2.1 7 rfl,
   (transactional_commits_or_rolls_back
      (fun _ : Unit => (Except.error (Exc.dbError "boom") : Except Exc Nat)) ()).2.2
      (Exc.dbError "boom") rfl⟩

/-- C2: every invocation of the `with_db_connection` wrapper opens exactly
one connection and closes that same connection exactly once, with the open
first and the close last — hence performed before the wrapper's own return
or re-raise — and the inner call's result (normal or exceptional) is passed
through unchanged on every exit path. -/
theorem with_db_connection_opens_closes_once {R IE : Type}
    (f : Nat → Except Exc R × List IE) :
    (with_db_connection f).1 = (f freshHandle).1 ∧
    (with_db_connection f).2.countP (fun e => DbEvent.isOpen e) = 1 ∧
    (with_db_connection f).2.countP (fun e => DbEvent.isClose e) = 1 ∧
    (with_db_connection f).2.head? = some (DbEvent.openConn freshHandle) ∧
    (with_db_connection f).2.getLast? = some (DbEvent.closeConn freshHandle) := by
  refine ⟨rfl, ?_, ?_, rfl, ?_⟩
  · show (DbEvent.openConn freshHandle ::
        ((f freshHandle).2.map DbEvent.inner ++ [DbEvent.closeConn freshHandle])).countP
          (fun e => DbEvent.isOpen e) = 1
    simp [List.countP_cons, List.countP_append, DbEvent.isOpen,
      countP_map_inner_isOpen]
  · show (DbEvent.openConn freshHandle ::
        ((f freshHandle).2.map DbEvent.inner ++ [DbEvent.closeConn freshHandle])).countP
          (fun e => DbEvent.isClose e) = 1
    simp [List.countP_cons, List.countP_append, DbEvent.isOpen, DbEvent.isClose,
      countP_map_inner_isClose]
  · show (DbEvent.openConn freshHandle ::
        ((f freshHandle).2.map DbEvent.inner ++ [DbEvent.closeConn freshHandle])).getLast?
        = some (DbEvent.closeConn freshHandle)
    rw [show DbEvent.openConn freshHandle ::
          ((f freshHandle).2.map DbEvent.inner ++ [DbEvent.closeConn freshHandle])
        = (DbEvent.openConn freshHandle :: (f freshHandle).2.map DbEvent.inner)
            ++ [DbEvent.closeConn freshHandle] from rfl]
    exact List.getLast?_concat _

/-- C5: `log_queries` is observationally transparent at the call interface:
the wrapped call receives the arguments unchanged, and the wrapper's result
is exactly the inner call's outcome — the returned value on success, the
original exception on failure — independently of the timestamp, function
name, or declared parameter list; the log records are the only extra
output. -/
theorem log_queries_transparent {R : Type} (ts fname : String)
    (params : List String)
    (f : List String → List (String × String) → Except Exc R)
    (args : List String) (kwargs : List (String × String)) :
    (log_queries ts fname params f args kwargs).result = f args kwargs := by
  unfold log_queries
  cases h : f args kwargs with
  | ok r => simp
  | error e => cases e <;> simp

/-- C9: with `retries=0` the loop `range(1, 1)` is empty: the inner function
is never invoked, no sleep happens, and the wrapper falls off the end of the
Python function body, returning `None` without raising. -/
theorem retry_on_failure_zero_retries {R : Type} (delay : Nat)
    (f : Nat → Except Exc R) :
    retry_on_failure 0 delay f = ⟨.ok none, 0, []⟩ :=
  rfl

/-- Retry loop on an always-failing inner function: with `fuel ≥ 1` attempts
remaining starting at attempt `i`, every attempt is made, the last raised
exception is the one of attempt `i + fuel - 1`, and `fuel - 1` sleeps of
`delay` seconds happen in between. -/
theorem retry_go_all_fail {R : Type} (f : Nat → Except Exc R) (delay : Nat)
    (es : Nat → Exc) (hf : ∀ i, f i = .error (es i)) :
    ∀ fuel i, 1 ≤ fuel →
      retry_go f delay fuel i
        = ⟨.error (es (i + fuel - 1)), fuel, List.replicate (fuel - 1) delay⟩ := by
  intro fuel
  induction fuel with
  | zero => intro i h; omega
  | succ n ih =>
    intro i _
    rw [retry_go, hf i]
    cases n with
    | zero => simp
    | succ m =>
      have hrec := ih (i + 1) (by omega)
      simp only [Nat.succ_ne_zero, if_false, hrec]
      have h1 : i + 1 + (m + 1) - 1 = i + (m + 1 + 1) - 1 := by omega
      have h2 : m + 1 - 1 = m := by omega
      have h3 : m + 1 + 1 - 1 = m + 1 := by omega
      rw [h1, h2, h3, List.replicate_succ]

/-- C3: when the inner function raises on every invocation, the wrapper with
`retries = N ≥ 1` invokes it exactly `N` times, sleeps `N - 1` times for
`delay` seconds, and re-raises the exception of the final (`N`-th) attempt
unchanged. -/
theorem retry_on_failure_exhaustion {R : Type} (retries delay : Nat)
    (f : Nat → Except Exc R) (es : Nat → Exc)
    (hN : 1 ≤ retries) (hf : ∀ i, f i = .error (es i)) :
    (retry_on_failure retries delay f).result = .error (es retries) ∧
    (retry_on_failure retries delay f).calls = retries ∧
    (retry_on_failure retries delay f).sleeps
      = List.replicate (retries - 1) delay := by
  have h := retry_go_all_fail f delay es hf retries 1 hN
  rw [retry_on_failure, h]
  refine ⟨?_, rfl, rfl⟩
  have : 1 + retries - 1 = retries := by omega
  rw [this]

/-- Witness for C3 at `N = 2`, `D = 5` with an inner function that always
raises: two invocations, the second attempt's exception re-raised. -/
theorem retry_on_failure_exhaustion_witness :
    (retry_on_failure 2 5
        (fun _ => (Except.error (Exc.other "down") : Except Exc Nat))).result
      = Except.error (Exc.other "down") ∧
    (retry_on_failure 2 5
        (fun _ => (Except.error (Exc.other "down") : Except Exc Nat))).calls = 2 :=
  ⟨(retry_on_failure_exhaustion 2 5
      (fun _ => (Except.error (Exc.other "down") : Except Exc Nat))
      (fun _ => Exc.other "down") (by omega) (fun _ => rfl)).1,
   (retry_on_failure_exhaustion 2 5
      (fun _ => (Except.error (Exc.other "down") : Except Exc Nat))
      (fun _ => Exc.other "down") (by omega) (fun _ => rfl)).2.1⟩

/-- Retry loop recovery: attempts `i, …, i+k-1` fail, attempt `i+k` succeeds
with `v`, and `k` is within the remaining fuel; then the loop returns `v`
having made `k + 1` invocations and `k` sleeps. -/
theorem retry_go_recovery {R : Type} (f : Nat → Except Exc R) (delay : Nat)
    (v : R) :
    ∀ k fuel i, k < fuel →
      (∀ j, j < k → ∃ e, f (i + j) = .error e) →
      f (i + k) = .ok v →
      retry_go f delay fuel i
        = ⟨.ok (some v), k + 1, List.replicate k delay⟩ := by
  intro k
  induction k with
  | zero =>
    intro fuel i hk _ hsucc
    cases fuel with
    | zero => omega
    | succ n =>
      simp only [Nat.add_zero] at hsucc
      rw [retry_go, hsucc]
      simp
  | succ k ih =>
    intro fuel i hk hfail hsucc
    cases fuel with
    | zero => omega
    | succ n =>
      obtain ⟨e, he⟩ := hfail 0 (by omega)
      rw [retry_go]
      simp only [Nat.add_zero] at he
      rw [he]
      have hn : n ≠ 0 := by omega
      have hrec : retry_go f delay n (i + 1)
          = ⟨.ok (some v), k + 1, List.replicate k delay⟩ := by
        refine ih n (i + 1) (by omega) ?_ ?_
        · intro j hj
          obtain ⟨e', he'⟩ := hfail (j + 1) (by omega)
          exact ⟨e', by rw [show i + 1 + j = i + (j + 1) by omega]; exact he'⟩
        · rw [show i + 1 + k = i + (k + 1) by omega]; exact hsucc
      simp [hn, hrec, List.replicate_succ]

/-- C7: when the inner function raises on its first `K` invocations and
returns `v` on invocation `K + 1`, with `K < retries`, the wrapper returns
`v` and the inner function was invoked exactly `K + 1` times (with `K`
sleeps of `delay` seconds in between). -/
theorem retry_on_failure_recovery {R : Type} (retries delay K : Nat)
    (f : Nat → Except Exc R) (v : R)
    (hK : K < retries)
    (hfail : ∀ j, j < K → ∃ e, f (1 + j) = .error e)
    (hsucc : f (1 + K) = .ok v) :
    (retry_on_failure retries delay f).result = .ok (some v) ∧
    (retry_on_failure retries delay f).calls = K + 1 ∧
    (retry_on_failure retries delay f).sleeps = List.replicate K delay := by
  have h := retry_go_recovery f delay v K retries 1 hK hfail hsucc
  rw [retry_on_failure, h]
  exact ⟨rfl, rfl, rfl⟩

/-- Witness for C7 at `N = 3`, `D = 2`, `K = 1`: the inner function fails on
invocation 1 and succeeds with `42` on invocation 2; the wrapper returns
`42` after exactly two invocations. -/
theorem retry_on_failure_recovery_witness :
    (retry_on_failure 3 2
        (fun i => if i ≤ 1 then (Except.error (Exc.dbError "locked") : Except Exc Nat)
                  else Except.ok 42)).result = Except.ok (some 42) ∧
    (retry_on_failure 3 2
        (fun i => if i ≤ 1 then (Except.error (Exc.dbError "locked") : Except Exc Nat)
                  else Except.ok 42)).calls = 2 :=
  ⟨(retry_on_failure_recovery 3 2 1
      (fun i => if i ≤ 1 then (Except.error (Exc.dbError "locked") : Except Exc Nat)
                else Except.ok 42) 42 (by omega)
      (fun j hj => ⟨Exc.dbError "locked", by interval_cases j; rfl⟩) rfl).1,
   (retry_on_failure_recovery 3 2 1
      (fun i => if i ≤ 1 then (Except.error (Exc.dbError "locked") : Except Exc Nat)
                else Except.ok 42) 42 (by omega)
      (fun j hj => ⟨Exc.dbError "locked", by interval_cases j; rfl⟩) rfl).2.1⟩

/-- C4: on every reachable cache state (all keys truthy, which the empty
initial `query_cache` satisfies and every wrapper call preserves), calling
the wrapped function with a query already present in the cache returns the
stored result with the cache untouched and the inner function not invoked;
in particular, calling twice with the identical query string — a cache miss
first — invokes the inner function only on the first call and returns the
identical stored result on the second, with zero inner invocations there. -/
theorem cache_query_hit_returns_stored {R : Type} :
    (∀ (f : List String → List (String × String) → Except Exc R)
        (cache : List (String × R)) (args : List String)
        (kwargs : List (String × String)) (q : String) (r : R),
      CacheKeysTruthy cache →
      locate_cache_query args kwargs = some q →
      cache.lookup q = some r →
      cache_query f cache args kwargs = ⟨.ok r, cache, 0⟩) ∧
    (∀ (f g : List String → List (String × String) → Except Exc R)
        (cache : List (String × R)) (args : List String)
        (kwargs : List (String × String)) (q : String) (r : R),
      locate_cache_query args kwargs = some q → q ≠ "" →
      cache.lookup q = none → f args kwargs = .ok r →
      (cache_query f cache args kwargs).innerCalls = 1 ∧
      (cache_query f cache args kwargs).result = .ok r ∧
      cache_query g (cache_query f cache args kwargs).cache args kwargs
        = ⟨.ok r, (q, r) :: cache, 0⟩) := by
  constructor
  · intro f cache args kwargs q r hinv hloc hlk
    obtain ⟨p, hp, hpq⟩ := lookup_some_mem_keys cache q r hlk
    have hq : q ≠ "" := by rw [← hpq]; exact hinv p hp
    exact cache_query_hit f cache args kwargs q r hloc hq hlk
  · intro f g cache args kwargs q r hloc hq hlk hf
    have h1 := cache_query_miss_ok f cache args kwargs q r hloc hq hlk hf
    refine ⟨by rw [h1], by rw [h1], ?_⟩
    rw [h1]
    exact cache_query_hit g ((q, r) :: cache) args kwargs q r hloc hq
      (lookup_cons_self q r cache)

/-- Witness for C4: a hit on a one-entry cache returns the stored row count
without an inner call, and a miss-then-hit pair on the empty cache invokes
the inner function only once. -/
theorem cache_query_hit_returns_stored_witness :
    cache_query (fun _ _ => (Except.ok 9 : Except Exc Nat))
        [("SELECT * FROM users", 4)] [] [("query", "SELECT * FROM users")]
      = ⟨.ok 4, [("SELECT * FROM users", 4)], 0⟩ ∧
    cache_query (fun _ _ => (Except.ok 99 : Except Exc Nat))
        (cache_query (fun _ _ => (Except.ok 4 : Except Exc Nat))
          query_cache [] [("query", "SELECT * FROM users")]).cache
        [] [("query", "SELECT * FROM users")]
      = ⟨.ok 4, [("SELECT * FROM users", 4)], 0⟩ :=
  ⟨(cache_query_hit_returns_stored).1
      (fun _ _ => (Except.ok 9 : Except Exc Nat))
      [("SELECT * FROM users", 4)] [] [("query", "SELECT * FROM users")]
      "SELECT * FROM users" 4
      (by intro p hp; simp at hp; rw [hp]; simp) rfl rfl,
   (cache_query_hit_returns_stored).2
      (fun _ _ => (Except.ok 4 : Except Exc Nat))
      (fun _ _ => (Except.ok 99 : Except Exc Nat))
      query_cache [] [("query", "SELECT * FROM users")]
      "SELECT * FROM users" 4 rfl (by simp) rfl rfl |>.2.2⟩

/-- C6 counterexample: with keyword arguments `{'query': ''}` and no
positional arguments, the rule stated by the claim (`'query' in kwargs`
first, else first positional) does locate a query string — the empty one —
yet the wrapper raises `ValueError("Missing SQL query for caching")`; so
"raises an input error if and only if no query string can be located by
this rule" is false at this input. -/
theorem cache_query_locator_counterexample :
    locate_cache_query_as_claimed [] [("query", "")] = some "" ∧
    (cache_query (fun _ _ => (Except.ok 0 : Except Exc Nat)) [] []
        [("query", "")]).result
      = .error (.missingQuery "Missing SQL query for caching") ∧
    ¬ (((cache_query (fun _ _ => (Except.ok 0 : Except Exc Nat)) [] []
          [("query", "")]).result
          = .error (.missingQuery "Missing SQL query for caching"))
        ↔ locate_cache_query_as_claimed [] [("query", "")] = none) := by
  refine ⟨rfl, rfl, fun h => ?_⟩
  have h2 : locate_cache_query_as_claimed [] [("query", "")] = none := h.mp rfl
  rw [show locate_cache_query_as_claimed [] [("query", "")] = some "" from rfl] at h2
  exact Option.noConfusion h2

/-- C6 amended: the candidate query is `kwargs['query']` when present and
truthy (nonempty), else the first positional argument — the code's
`kwargs.get("query") or (args[0] if args else None)` — and the wrapper
raises `ValueError` if and only if that candidate is absent or empty
(falsy); in that case the inner function is not invoked and the cache is
unchanged. -/
theorem cache_query_missing_query_amended {R : Type}
    (f : List String → List (String × String) → Except Exc R)
    (cache : List (String × R)) (args : List String)
    (kwargs : List (String × String)) :
    (((cache_query f cache args kwargs).result
        = .error (.missingQuery "Missing SQL query for caching"))
      ↔ truthy (locate_cache_query args kwargs) = false) ∧
    (truthy (locate_cache_query args kwargs) = false →
      (cache_query f cache args kwargs).innerCalls = 0 ∧
      (cache_query f cache args kwargs).cache = cache) := by
  cases htr : truthy (locate_cache_query args kwargs) with
  | false =>
    rw [cache_query_falsy f cache args kwargs htr]
    exact ⟨⟨fun _ => rfl, fun _ => rfl⟩, fun _ => ⟨rfl, rfl⟩⟩
  | true =>
    obtain ⟨q, hloc, hq⟩ := (truthy_eq_true_iff _).mp htr
    have hne : (cache_query f cache args kwargs).result
        ≠ .error (.missingQuery "Missing SQL query for caching") := by
      cases hlk : cache.lookup q with
      | some r =>
        rw [cache_query_hit f cache args kwargs q r hloc hq hlk]
        simp
      | none =>
        cases hf : f args kwargs with
        | ok r =>
          rw [cache_query_miss_ok f cache args kwargs q r hloc hq hlk hf]
          simp
        | error e =>
          rw [cache_query_miss_raise f cache args kwargs q e hloc hq hlk hf]
          simp
    exact ⟨⟨fun hres => (hne hres).elim, fun h => by simp at h⟩,
           fun h => by simp at h⟩

/-- Witness for C6 (amended): with neither keyword nor positional query the
wrapper raises `ValueError`, makes no inner call and leaves the cache
unchanged. -/
theorem cache_query_missing_query_amended_witness :
    ((cache_query (fun _ _ => (Except.ok 3 : Except Exc Nat)) [] [] []).result
      = .error (.missingQuery "Missing SQL query for caching")) ∧
    (cache_query (fun _ _ => (Except.ok 3 : Except Exc Nat)) [] [] []).innerCalls
      = 0 :=
  ⟨(cache_query_missing_query_amended
      (fun _ _ => (Except.ok 3 : Except Exc Nat)) [] [] []).1.mpr rfl,
   ((cache_query_missing_query_amended
      (fun _ _ => (Except.ok 3 : Except Exc Nat)) [] [] []).2 rfl).1⟩

/-- C10: each wrapper call touches at most the cache entry of its own
located query — lookups of every other key are preserved — and leaves the
cache entirely unchanged on the missing-query error path, on a hit, and on
a miss whose inner call raises; only a miss whose inner call returns adds a
binding, exactly the located query mapped to the inner result. -/
theorem cache_query_cache_frame {R : Type}
    (f : List String → List (String × String) → Except Exc R)
    (cache : List (String × R)) (args : List String)
    (kwargs : List (String × String)) :
    (∀ k : String, locate_cache_query args kwargs ≠ some k →
      ((cache_query f cache args kwargs).cache).lookup k = cache.lookup k) ∧
    (truthy (locate_cache_query args kwargs) = false →
      (cache_query f cache args kwargs).cache = cache) ∧
    (∀ (q : String) (r : R), locate_cache_query args kwargs = some q →
      cache.lookup q = some r →
      (cache_query f cache args kwargs).cache = cache) ∧
    (∀ (q : String) (r : R), locate_cache_query args kwargs = some q →
      q ≠ "" → cache.lookup q = none → f args kwargs = .ok r →
      (cache_query f cache args kwargs).cache = (q, r) :: cache) ∧
    (∀ (q : String) (e : Exc), locate_cache_query args kwargs = some q →
      cache.lookup q = none → f args kwargs = .error e →
      (cache_query f cache args kwargs).cache = cache) := by
  refine ⟨?_, ?_, ?_, ?_, ?_⟩
  · intro k hk
    cases htr : truthy (locate_cache_query args kwargs) with
    | false => rw [cache_query_falsy f cache args kwargs htr]
    | true =>
      obtain ⟨q, hloc, hq⟩ := (truthy_eq_true_iff _).mp htr
      have hkq : k ≠ q := by
        intro hkq
        exact hk (hkq ▸ hloc)
      cases hlk : cache.lookup q with
      | some r => rw [cache_query_hit f cache args kwargs q r hloc hq hlk]
      | none =>
        cases hf : f args kwargs with
        | ok r =>
          rw [cache_query_miss_ok f cache args kwargs q r hloc hq hlk hf]
          exact lookup_cons_ne q k r cache hkq
        | error e =>
          rw [cache_query_miss_raise f cache args kwargs q e hloc hq hlk hf]
  · intro htr
    rw [cache_query_falsy f cache args kwargs htr]
  · intro q r hloc hlk
    by_cases hq : q = ""
    · have htr : truthy (locate_cache_query args kwargs) = false := by
        rw [hloc, hq]; simp [truthy]
      rw [cache_query_falsy f cache args kwargs htr]
    · rw [cache_query_hit f cache args kwargs q r hloc hq hlk]
  · intro q r hloc hq hlk hf
    rw [cache_query_miss_ok f cache args kwargs q r hloc hq hlk hf]
  · intro q e hloc hlk hf
    by_cases hq : q = ""
    · have htr : truthy (locate_cache_query args kwargs) = false := by
        rw [hloc, hq]; simp [truthy]
      rw [cache_query_falsy f cache args kwargs htr]
    · rw [cache_query_miss_raise f cache args kwargs q e hloc hq hlk hf]

/-- Witness for C10: a miss that stores under `"B"` preserves the lookup of
the unrelated key `"A"`, and adds exactly the binding for `"B"`. -/
theorem cache_query_cache_frame_witness :
    ((cache_query (fun _ _ => (Except.ok 2 : Except Exc Nat)) [("A", 1)]
        ["B"] []).cache).lookup "A" = some 1 ∧
    (cache_query (fun _ _ => (Except.ok 2 : Except Exc Nat)) [("A", 1)]
        ["B"] []).cache = [("B", 2), ("A", 1)] :=
  ⟨by
    have h := (cache_query_cache_frame
        (fun _ _ => (Except.ok 2 : Except Exc Nat)) [("A", 1)] ["B"] []).1 "A"
        (by intro h; simp [locate_cache_query, pyOr, truthy] at h)
    rw [h]
    rfl,
   (cache_query_cache_frame
      (fun _ _ => (Except.ok 2 : Except Exc Nat)) [("A", 1)] ["B"] []).2.2.2.1
      "B" 2 rfl (by simp) rfl rfl⟩

/-- The first record emitted by `log_queries` is the pre-invocation record:
`info` when the code's located candidate is truthy, `warning` otherwise,
regardless of the inner call's outcome. -/
theorem log_queries_head_level {R : Type} (ts fname : String)
    (params : List String)
    (f : List String → List (String × String) → Except Exc R)
    (args : List String) (kwargs : List (String × String)) :
    (log_queries ts fname params f args kwargs).logs.head?.map LogRec.level
      = some (if truthy (locate_log_query params args kwargs) then
                LogLevel.info
              else LogLevel.warning) := by
  unfold log_queries
  cases hf : f args kwargs with
  | ok r =>
    cases htr : truthy (locate_log_query params args kwargs) <;> simp [htr]
  | error e =>
    cases e <;>
      · cases htr : truthy (locate_log_query params args kwargs) <;> simp [htr]

/-- C8 counterexample: wrapping a function whose declared parameters are
`["a"]` (no parameter named `query`) and calling it with one positional
argument, the rule stated by the claim (keyword first, then
positional-index at the declared `query` parameter) locates nothing — yet
the wrapper emits two `info` records and no warning, because the
`except ValueError` branch substitutes the truthy fallback string
`"Query not found in standard position. Args: …"` as the query. -/
theorem log_queries_warning_counterexample :
    locate_log_query_as_claimed ["a"] ["SELECT 1"] [] = none ∧
    (log_queries "T" "f" ["a"] (fun _ _ => (Except.ok 0 : Except Exc Nat))
        ["SELECT 1"] []).logs.map LogRec.level
      = [LogLevel.info, LogLevel.info] := by
  exact ⟨rfl, rfl⟩

/-- C8 amended: the pre-invocation record — always emitted, before the
inner function's outcome can matter — is a warning exactly when the code's
located candidate (`locate_log_query`: keyword first, then positional-index
at the declared `query` parameter when in range, with a truthy fallback
string when positional arguments exist but no `query` parameter is
declared) is falsy, i.e. absent or the empty string; otherwise it is an
info record.  In particular a declared-`query`-less function called
positionally gets an info record, and an empty keyword query gets a
warning even though it was located. -/
theorem log_queries_warning_iff {R : Type} (ts fname : String)
    (params : List String)
    (f : List String → List (String × String) → Except Exc R)
    (args : List String) (kwargs : List (String × String)) :
    ((log_queries ts fname params f args kwargs).logs.head?.map LogRec.level
        = some LogLevel.warning
      ↔ truthy (locate_log_query params args kwargs) = false) ∧
    ((log_queries ts fname params f args kwargs).logs.head?.map LogRec.level
        = some LogLevel.info
      ↔ truthy (locate_log_query params args kwargs) = true) := by
  rw [log_queries_head_level ts fname params f args kwargs]
  cases truthy (locate_log_query params args kwargs) <;> simp

/-- Witness for C8 (amended): a call with no query argument at all yields a
warning as the first record. -/
theorem log_queries_warning_iff_witness :
    (log_queries "T" "g" ["query"]
        (fun _ _ => (Except.ok 0 : Except Exc Nat)) [] []).logs.head?.map
        LogRec.level
      = some LogLevel.warning :=
  (log_queries_warning_iff "T" "g" ["query"]
      (fun _ _ => (Except.ok 0 : Except Exc Nat)) [] []).1.mpr rfl

end PyDecorators
